import Mathlib

/-!
Shallow embedding of the client-side state synchronizer of the
Multimodal-agentic-AI dashboard frontend: the App component state
(src App component), the polling hook (useAgentPolling.js) and the
channel operations (submitTask, submitUserInput, resetAgent, killSwitch,
submitPendingAnswer), together with the stall-detector timer.

Conventions of the embedding:
- The remote status payload is read only through its `.status` field,
  so `AppState.status` holds that field as an `Option String`
  (the initial React state is the empty object, whose `.status` is
  undefined, modelled as `none`).
- JS `x || d` on a possibly-absent field is modelled as `Option.getD`.
- Network calls are modelled by passing their outcome (payload or
  failure) as an explicit argument to the transition function.
- The polling effect of useAgentPolling.js has dependency array
  [fresh, quotaError]; the `poll` closure therefore keeps the value of
  `editingUserInput` that was current when the effect last ran.  The
  loop state carries that captured Boolean separately from the live
  component state.
- The one-shot stall timeout is modelled by its absolute deadline; the
  JS variable `planningTimer` itself (which is assigned a handle once
  and never set back to undefined) is modelled by the Boolean
  `timerSet`, which records the truthiness of that variable.
-/

/-- Local React component state of the App component (one field per
useState hook, in source order). -/
structure AppState where
  task : String
  userInput : String
  status : Option String
  logs : List String
  screenshotUrl : String
  loading : Bool
  logsOpen : Bool
  fresh : Bool
  planningStuck : Bool
  editingUserInput : Bool
  killing : Bool
  quotaError : Bool
  pendingQuestion : Option String
  pendingAnswer : String
  deriving Repr, DecidableEq

/-- Initial values of the useState hooks of App. -/
def initialAppState : AppState :=
  { task := ""
    userInput := ""
    status := none
    logs := []
    screenshotUrl := ""
    loading := false
    logsOpen := false
    fresh := true
    planningStuck := false
    editingUserInput := false
    killing := false
    quotaError := false
    pendingQuestion := none
    pendingAnswer := "" }

/-- Responses of the four fetches performed by one poll cycle of
useAgentPolling.js: the `.status` field of the /status payload, the
`.logs` field of the /logs payload, the `.user_input` field of the
/user_input payload, and the cache-busted screenshot locator. -/
structure PollResponse where
  status : Option String
  logs : Option (List String)
  user_input : Option String
  screenshotUrl : String
  deriving Repr, DecidableEq

/-- State of one activation of the polling effect: the component state,
the value of `editingUserInput` captured by the effect closure when the
effect ran (the dependency array is [fresh, quotaError], so later
changes of `editingUserInput` do not re-run the effect), the truthiness
of the effect-local `planningTimer` variable, and the absolute deadline
of the armed, not-yet-fired, not-yet-cancelled stall timeout. -/
structure LoopState where
  app : AppState
  capturedEditing : Bool
  timerSet : Bool
  timerDeadline : Option Nat
  deriving Repr, DecidableEq

/-- Effect activation (the body of the useEffect of useAgentPolling.js
starting to run): `planningTimer` is undefined and the closure captures
the current `editingUserInput`. -/
def activateLoop (app : AppState) : LoopState :=
  { app := app
    capturedEditing := app.editingUserInput
    timerSet := false
    timerDeadline := none }

/-- Fire the stall timeout if its deadline has been reached by time `t`:
the setTimeout callback runs `setPlanningStuck(true)`.  Firing consumes
the one-shot timeout but leaves the `planningTimer` variable truthy. -/
def fireIfDue (t : Nat) (ls : LoopState) : LoopState :=
  match ls.timerDeadline with
  | some d =>
      if d ≤ t then
        { ls with
            app := { ls.app with planningStuck := true }
            timerDeadline := none }
      else ls
  | none => ls

/-- One poll cycle of useAgentPolling.js at time `t` (milliseconds)
receiving `r`, run after any due stall timeout has fired:
setStatus; early return on "quota_exceeded" after setPlanningStuck(false);
otherwise arm the 30000 ms stall timeout on "planning" only when the
`planningTimer` variable is still falsy, or on any other status
setPlanningStuck(false) and clearTimeout (which does not reset the
variable); then setLogs(logs.logs || []), the EditGuard-gated
setUserInput(user_input || "") using the captured editing flag, and
setScreenshotUrl. -/
def poll (ls : LoopState) (t : Nat) (r : PollResponse) : LoopState :=
  let ls := fireIfDue t ls
  let app := { ls.app with status := r.status }
  if r.status = some "quota_exceeded" then
    { ls with app := { app with planningStuck := false } }
  else
    let ls :=
      if r.status = some "planning" then
        if ls.timerSet then { ls with app := app }
        else
          { ls with
              app := app
              timerSet := true
              timerDeadline := some (t + 30000) }
      else
        { ls with
            app := { app with planningStuck := false }
            timerDeadline := none }
    let app := { ls.app with logs := r.logs.getD [] }
    let app :=
      if ls.capturedEditing then app
      else { app with userInput := r.user_input.getD "" }
    { ls with app := { app with screenshotUrl := r.screenshotUrl } }

/-- A sequence of poll cycles, each with its time and fetched payload. -/
def runPolls (ls : LoopState) (tr : List (Nat × PollResponse)) : LoopState :=
  tr.foldl (fun s p => poll s p.1 p.2) ls

/-- Guard of the polling effect (useAgentPolling.js line 9): the main
loop body runs only when `!fresh && !quotaError`. -/
def pollingActive (fresh quotaError : Bool) : Bool :=
  !fresh && !quotaError

/-- The onFocus handler of the directive text field: setEditingUserInput(true). -/
def focusUserInput (st : AppState) : AppState :=
  { st with editingUserInput := true }

/-- The onBlur handler of the directive text field: setEditingUserInput(false). -/
def blurUserInput (st : AppState) : AppState :=
  { st with editingUserInput := false }

/-- The onChange handler of the directive text field: setUserInput(value). -/
def typeUserInput (st : AppState) (s : String) : AppState :=
  { st with userInput := s }

/-- Outcome of a write request: success, or failure carrying the
optional server-provided error field (e.response?.data?.error). -/
inductive ApiResult where
  | ok : ApiResult
  | err : Option String → ApiResult
  deriving Repr, DecidableEq

/-- submitTask of App: setLoading(true); on success setTask("") and
setFresh(false); on failure alert the server error field or the
fallback text; finally setLoading(false).  Returns the new state and
the alert text, if any. -/
def submitTask (st : AppState) (r : ApiResult) : AppState × Option String :=
  match r with
  | ApiResult.ok =>
      ({ st with task := "", fresh := false, loading := false }, none)
  | ApiResult.err m =>
      ({ st with loading := false }, some (m.getD "Failed to submit task"))

/-- submitUserInput of App: setLoading(true); on success
setEditingUserInput(false); on failure a generic alert; finally
setLoading(false). -/
def submitUserInput (st : AppState) (ok : Bool) : AppState × Option String :=
  if ok then
    ({ st with editingUserInput := false, loading := false }, none)
  else
    ({ st with loading := false }, some "Failed to send direction/feedback")

/-- resetAgent of App: setLoading(true); on success of the killAgent
call, clear task, userInput, status, logs, screenshotUrl, logsOpen and
set fresh=true and quotaError=false; on failure alert and change
nothing else; finally setLoading(false). -/
def resetAgent (st : AppState) (ok : Bool) : AppState × Option String :=
  if ok then
    ({ st with
        task := ""
        userInput := ""
        status := none
        logs := []
        screenshotUrl := ""
        logsOpen := false
        fresh := true
        quotaError := false
        loading := false }, none)
  else
    ({ st with loading := false }, some "Failed to reset agent")

/-- killSwitch of App: setKilling(true), setLoading(true); on success of
the killAgent call, clear task, status, logs, screenshotUrl, logsOpen,
userInput, set fresh=true, setKilling(false) and then
window.location.reload(), which discards the document and remounts the
App component, so every useState hook returns to its initial value; on
failure alert and setKilling(false), then setLoading(false).  Returns
the resulting component state, whether the page reloaded, and the alert
text, if any. -/
def killSwitch (st : AppState) (ok : Bool) : AppState × Bool × Option String :=
  let st := { st with killing := true, loading := true }
  if ok then
    let _preReload :=
      { st with
          task := ""
          status := none
          logs := []
          screenshotUrl := ""
          logsOpen := false
          userInput := ""
          fresh := true
          killing := false }
    (initialAppState, true, none)
  else
    ({ st with killing := false, loading := false }, false,
      some "Failed to kill/reset agent")

/-- submitPendingAnswer of App: post the answer (no try/catch: a failed
await skips the rest of the function); on success setPendingQuestion(null)
and setPendingAnswer(""). -/
def submitPendingAnswer (st : AppState) (ok : Bool) : AppState :=
  if ok then
    { st with pendingQuestion := none, pendingAnswer := "" }
  else st

/-- The `loading` prop App passes to TaskInput: the task field and Send
button are disabled while it is true. -/
def taskInputLoading (st : AppState) : Bool :=
  st.loading || st.killing || st.quotaError ||
    (!st.fresh &&
      !(st.status = some "idle" || st.status = some "completed" ||
        st.status = some "aborted"))

/-- Loop state for the edit-guard scenario: the loop activates right
after a successful task submission (so its closure captures
editingUserInput=false), then the operator focuses the directive field
and types "please wait". -/
def staleEditScenario : LoopState :=
  let ls := activateLoop (submitTask { initialAppState with task := "do" } ApiResult.ok).1
  { ls with app := typeUserInput (focusUserInput ls.app) "please wait" }

/-- Poll payload arriving while the operator of `staleEditScenario` is
still editing: the remote mirror holds "agent text". -/
def staleEditResponse : PollResponse :=
  { status := some "acting", logs := some [], user_input := some "agent text",
    screenshotUrl := "u" }

/-- Constant poll payload reporting the given status. -/
def statusProbe (s : String) : PollResponse :=
  { status := some s, logs := some [], user_input := some "",
    screenshotUrl := "" }

/-- First planning episode: continuous "planning" polls at 0 and 31000
in one activation of the loop. -/
def stallFirstEpisode : LoopState :=
  runPolls (activateLoop { initialAppState with fresh := false })
    [(0, statusProbe "planning"), (31000, statusProbe "planning")]

/-- Re-entry scenario: planning at 0, idle at 3000, then planning again
continuously from 6000 through 40000 (more than 30 s) in the same
activation of the loop. -/
def stallReentryEpisode : LoopState :=
  runPolls (activateLoop { initialAppState with fresh := false })
    [(0, statusProbe "planning"), (3000, statusProbe "idle"),
     (6000, statusProbe "planning"), (40000, statusProbe "planning")]

/-- Running loop state (fresh already false) about to observe a
quota-exceeded poll. -/
def quotaProbeState : LoopState :=
  activateLoop { initialAppState with fresh := false }

/-- Firing the stall timeout touches only `planningStuck` and the
armed-timeout deadline. -/
theorem fireIfDue_preserves (t : Nat) (ls : LoopState) :
    (fireIfDue t ls).app.logs = ls.app.logs ∧
    (fireIfDue t ls).app.userInput = ls.app.userInput ∧
    (fireIfDue t ls).app.screenshotUrl = ls.app.screenshotUrl ∧
    (fireIfDue t ls).capturedEditing = ls.capturedEditing ∧
    (fireIfDue t ls).app.editingUserInput = ls.app.editingUserInput := by
  obtain ⟨app, ce, ts, td⟩ := ls
  rcases td with _ | d
  · exact ⟨rfl, rfl, rfl, rfl, rfl⟩
  · by_cases hd : d ≤ t <;> simp [fireIfDue, hd]

/-- C1: the edit guard fails.  The polling effect (dependency array
[fresh, quotaError]) captures `editingUserInput` at activation; if the
operator focuses the directive field afterwards, the running loop still
sees the captured value false, and a poll overwrites the buffer even
though `editingUserInput` is true before and after every cycle of the
sequence.  Concretely: after a successful task submission the loop
activates with editing=false; the operator focuses and types
"please wait"; one poll returns mirrored input "agent text" and the
local buffer becomes "agent text". -/
theorem edit_guard_stale_capture :
    staleEditScenario.app.editingUserInput = true ∧
    (poll staleEditScenario 0 staleEditResponse).app.editingUserInput = true ∧
    staleEditScenario.app.userInput = "please wait" ∧
    (poll staleEditScenario 0 staleEditResponse).app.userInput = "agent text" :=
  ⟨rfl, rfl, rfl, rfl⟩

/-- C2: the stall detector does not restart its dwell on re-entering
"planning".  The effect-local `planningTimer` variable is assigned a
handle on the first "planning" poll of an activation and is never set
back to undefined (clearTimeout does not clear the variable), so the
guard `if (!planningTimer)` never arms a second timeout.  First
episode: continuous "planning" makes `planningStuck` true once 30000 ms
elapse.  Second episode: after planning at 0, idle at 3000, planning
from 6000 through 40000 (more than 30 s of continuous planning), no
timeout is armed and `planningStuck` is still false even at 45000. -/
theorem stall_timer_not_rearmed_on_reentry :
    stallFirstEpisode.app.planningStuck = true ∧
    stallReentryEpisode.timerDeadline = none ∧
    stallReentryEpisode.timerSet = true ∧
    (fireIfDue 45000 stallReentryEpisode).app.planningStuck = false :=
  ⟨rfl, rfl, rfl, rfl⟩

/-- C3: observing status "quota_exceeded" does not halt the main loop.
No code ever calls setQuotaError(true) (the setter is not even passed
to useAgentPolling), so after a poll fetches "quota_exceeded" the
`quotaError` flag is still false and the effect guard
`!fresh && !quotaError` still evaluates to true: the interval keeps
firing and later cycles keep fetching. -/
theorem quota_status_leaves_loop_running :
    (poll quotaProbeState 0 (statusProbe "quota_exceeded")).app.quotaError = false ∧
    (poll quotaProbeState 0 (statusProbe "quota_exceeded")).app.status =
      some "quota_exceeded" ∧
    pollingActive (poll quotaProbeState 0 (statusProbe "quota_exceeded")).app.fresh
      (poll quotaProbeState 0 (statusProbe "quota_exceeded")).app.quotaError = true :=
  ⟨rfl, rfl, rfl⟩

/-- C4 counterexample: the claim says submission is permitted whenever
`fresh=true`, but with `fresh=true` and `quotaError=true` the TaskInput
loading prop is true, i.e. submission is disabled. -/
theorem task_gate_rejects_fresh_when_quota :
    ({ initialAppState with quotaError := true } : AppState).fresh = true ∧
    taskInputLoading { initialAppState with quotaError := true } = true :=
  ⟨rfl, rfl⟩

/-- C4 amended: the TaskInput loading prop is false (submission
permitted) exactly when no operation is in flight (`loading=false`,
`killing=false`), `quotaError=false`, and either `fresh=true` or the
last known status is one of idle, completed, aborted; equivalently it
is true (submission rejected) whenever `quotaError=true`, or
`fresh=false` with a status outside that set, or an operation is in
flight. -/
theorem task_gate_characterization (st : AppState) :
    taskInputLoading st = false ↔
      (st.loading = false ∧ st.killing = false ∧ st.quotaError = false ∧
        (st.fresh = true ∨ st.status = some "idle" ∨
          st.status = some "completed" ∨ st.status = some "aborted")) := by
  cases hl : st.loading <;> cases hk : st.killing <;> cases hq : st.quotaError <;>
    cases hf : st.fresh <;> simp [taskInputLoading, hl, hk, hq, hf]
  tauto

/-- C5: a successful task submission clears the local task field, sets
`fresh` to false (so the effect guard now depends only on the quota
flag), and raises no alert; a failed submission surfaces the server
error field when present (otherwise the generic fallback) and leaves
the task text and `fresh` unchanged. -/
theorem submit_task_outcomes (st : AppState) (m : Option String) :
    (submitTask st ApiResult.ok).1.task = "" ∧
    (submitTask st ApiResult.ok).1.fresh = false ∧
    (submitTask st ApiResult.ok).2 = none ∧
    pollingActive (submitTask st ApiResult.ok).1.fresh
      (submitTask st ApiResult.ok).1.quotaError = !st.quotaError ∧
    (submitTask st (ApiResult.err m)).1.task = st.task ∧
    (submitTask st (ApiResult.err m)).1.fresh = st.fresh ∧
    (submitTask st (ApiResult.err m)).2 = some (m.getD "Failed to submit task") :=
  ⟨rfl, rfl, rfl, rfl, rfl, rfl, rfl⟩

/-- C6: after a successful Kill the snapshot, log buffer, directive
buffer and pending interjection are all cleared and `fresh` is true
(the setters clear most of them and window.location.reload remounts the
component, resetting every hook to its initial value, including the
pending question), for every prior local state. -/
theorem kill_clears_all_state (st : AppState) :
    (killSwitch st true).1.status = none ∧
    (killSwitch st true).1.logs = [] ∧
    (killSwitch st true).1.userInput = "" ∧
    (killSwitch st true).1.pendingQuestion = none ∧
    (killSwitch st true).1.fresh = true ∧
    (killSwitch st true).2.1 = true :=
  ⟨rfl, rfl, rfl, rfl, rfl, rfl⟩

/-- C7: successfully answering a pending question clears the question
and the answer draft while leaving the directive buffer's text
unchanged; a failed submission (the awaited post throws before the
setters run) leaves the question and draft in place. -/
theorem answer_clears_interjection_only (st : AppState) :
    (submitPendingAnswer st true).pendingQuestion = none ∧
    (submitPendingAnswer st true).pendingAnswer = "" ∧
    (submitPendingAnswer st true).userInput = st.userInput ∧
    (submitPendingAnswer st false).pendingQuestion = st.pendingQuestion ∧
    (submitPendingAnswer st false).pendingAnswer = st.pendingAnswer :=
  ⟨rfl, rfl, rfl, rfl, rfl⟩

/-- C8: when the remote teardown call of Reset fails, every field the
claim names (task, userInput, status, logs, screenshot reference,
log-panel visibility, fresh, quotaExceeded) keeps its prior value and
the error alert is surfaced. -/
theorem reset_failure_preserves_state (st : AppState) :
    (resetAgent st false).1.task = st.task ∧
    (resetAgent st false).1.userInput = st.userInput ∧
    (resetAgent st false).1.status = st.status ∧
    (resetAgent st false).1.logs = st.logs ∧
    (resetAgent st false).1.screenshotUrl = st.screenshotUrl ∧
    (resetAgent st false).1.logsOpen = st.logsOpen ∧
    (resetAgent st false).1.fresh = st.fresh ∧
    (resetAgent st false).1.quotaError = st.quotaError ∧
    (resetAgent st false).2 = some "Failed to reset agent" :=
  ⟨rfl, rfl, rfl, rfl, rfl, rfl, rfl, rfl, rfl⟩

/-- C9: a successful directive submission sets `editingUserInput` to
false and a failed one leaves it unchanged; consequently a poll cycle
of a loop activated on the post-send state (so its closure captures
editing=false) assigns the remote mirrored value into the directive
buffer, for any non-quota status. -/
theorem submit_directive_edit_guard (st : AppState) (t : Nat) (r : PollResponse)
    (h : ¬ r.status = some "quota_exceeded") :
    (submitUserInput st true).1.editingUserInput = false ∧
    (submitUserInput st false).1.editingUserInput = st.editingUserInput ∧
    (poll (activateLoop (submitUserInput st true).1) t r).app.userInput =
      r.user_input.getD "" := by
  refine ⟨rfl, rfl, ?_⟩
  by_cases hp : r.status = some "planning" <;>
    simp [poll, activateLoop, submitUserInput, fireIfDue, h, hp]

/-- C9 witness: instantiation at the initial state and a concrete poll
payload with status "acting" and mirrored input "remote". -/
theorem submit_directive_edit_guard_witness :
    (poll (activateLoop (submitUserInput initialAppState true).1) 0
      { status := some "acting", logs := some [], user_input := some "remote",
        screenshotUrl := "u" }).app.userInput = "remote" :=
  (submit_directive_edit_guard initialAppState 0
    { status := some "acting", logs := some [], user_input := some "remote",
      screenshotUrl := "u" } (by decide)).2.2

/-- C10: a poll cycle that fetches status "quota_exceeded" ends after
setPlanningStuck(false): the log buffer, the directive buffer and the
screenshot reference keep the values they had when the cycle started. -/
theorem quota_cycle_frame (ls : LoopState) (t : Nat) (r : PollResponse)
    (h : r.status = some "quota_exceeded") :
    (poll ls t r).app.logs = ls.app.logs ∧
    (poll ls t r).app.userInput = ls.app.userInput ∧
    (poll ls t r).app.screenshotUrl = ls.app.screenshotUrl ∧
    (poll ls t r).app.planningStuck = false := by
  obtain ⟨h1, h2, h3, _, _⟩ := fireIfDue_preserves t ls
  simp [poll, h]
  exact ⟨h1, h2, h3⟩

/-- C10 witness: instantiation at the freshly activated initial state
with a concrete quota-exceeded payload. -/
theorem quota_cycle_frame_witness :
    (poll (activateLoop initialAppState) 0
      { status := some "quota_exceeded", logs := some ["x"],
        user_input := some "y", screenshotUrl := "z" }).app.userInput =
      (activateLoop initialAppState).app.userInput :=
  (quota_cycle_frame (activateLoop initialAppState) 0
    { status := some "quota_exceeded", logs := some ["x"],
      user_input := some "y", screenshotUrl := "z" } rfl).2.1
